import Mathlib

/-
Shallow embedding of the capture-and-analyze orchestration of the
ai-eye-assistant Electron application.

Embedded source files:
- src/electron-app/main/api.js      (analyzeImage and its error mapping)
- src/electron-app/main/main.js     (performCapture, startAutoCapture,
  stopAutoCapture, the IPC handlers capture-now and update-settings,
  and the before-quit teardown hook)

Modelling conventions:
- A thrown JavaScript Error is represented by its message string, and a
  fallible computation by Except String.
- JavaScript truthiness tests on strings (the empty string is falsy) are
  rendered as equality with "".
- Events sent to the renderer through mainWindow.webContents.send are
  collected in a list; the source guards each send with the test
  if (mainWindow), rendered here by the mainWindow boolean of the state.
- The process is single threaded: each handler body between two awaits
  runs atomically.  The coarse model below treats one performCapture run
  as a single step; a finer interleaved model (LoopState) exposes the
  suspension points of performCapture for the single-flight claim.
-/

/-! ## Error classes (spec section 3) and the fixed human messages of the code -/

inductive ErrorClass
  | permissionDenied
  | noApiKey
  | invalidApiKey
  | rateLimited
  | serviceUnavailable
  | networkUnreachable
  | timeout
  | captureFailed
  | unknown
deriving DecidableEq

/-- api.js line 106: message thrown for HTTP status 401. -/
def invalidApiKeyMsg : String :=
  "Invalid API key. Please check your OpenAI API key in Settings."

/-- api.js line 108: message thrown for HTTP status 429. -/
def rateLimitedMsg : String :=
  "Rate limit exceeded. Please wait a moment before trying again."

/-- api.js line 112: message thrown for HTTP status 500, 502 or 503. -/
def serviceUnavailableMsg : String :=
  "OpenAI service is temporarily unavailable. Please try again later."

/-- api.js line 117: message thrown for error codes ENOTFOUND and ECONNREFUSED. -/
def networkUnreachableMsg : String :=
  "Network error. Please check your internet connection."

/-- api.js line 119: message thrown for error codes ETIMEDOUT and ECONNABORTED. -/
def timeoutMsg : String :=
  "Request timed out. Please try again."

/-- main.js line 179: message thrown when the stored API key is empty. -/
def noApiKeyMsg : String :=
  "OpenAI API key not configured. Please add your API key in Settings."

/-- main.js line 171: message thrown when captureScreen returns a falsy value. -/
def captureFailedMsg : String :=
  "Failed to capture screenshot"

/-- api.js line 90: message thrown when the 2xx response carries no content. -/
def noContentMsg : String :=
  "No response content from API"

/-- The inverse of the fixed message table of spec section 7: classifies an
error message string by the ErrorClass whose fixed human message it equals;
any other message is Unknown. -/
def errorClassOfMessage (m : String) : ErrorClass :=
  if m = invalidApiKeyMsg then .invalidApiKey
  else if m = rateLimitedMsg then .rateLimited
  else if m = serviceUnavailableMsg then .serviceUnavailable
  else if m = networkUnreachableMsg then .networkUnreachable
  else if m = timeoutMsg then .timeout
  else if m = noApiKeyMsg then .noApiKey
  else if m = captureFailedMsg then .captureFailed
  else .unknown

/-! ## api.js: analyzeImage -/

/-- Transport-level outcome of the axios POST inside analyzeImage.
`http status m` is an axios error carrying a response (a non-2xx status,
with the optional provider message error.response.data.error.message);
`netError code m` is an axios error without a response, carrying the
error.code string and the original error message;
`ok content` is a 2xx response whose choices[0].message.content is
`content` (none models a missing body). -/
inductive ApiResponse
  | http (status : Nat) (m : Option String)
  | netError (code : String) (m : String)
  | ok (content : Option String)
deriving DecidableEq

/-- api.js line 100: error.response.data.error.message with the JavaScript
or-default: an absent or empty provider message becomes "Unknown API error". -/
def providerMessageOf (m : Option String) : String :=
  match m with
  | some s => if s = "" then "Unknown API error" else s
  | none => "Unknown API error"

/-- api.js lines 30-124: analyzeImage.  Given the configured key and the
transport outcome of the single axios call, it returns the analysis text or
throws a message.  The switch on error.response.status handles 401, 429 and
exactly 500, 502, 503; every other status with a response falls to the
default branch "API error: {message}".  Errors without a response are mapped
by error.code, and any unrecognized error is rethrown unchanged. -/
def analyzeImage (apiKey : String) (resp : ApiResponse) : Except String String :=
  if apiKey = "" then .error "API key not configured"
  else
    match resp with
    | .ok (some content) =>
        if content = "" then .error noContentMsg else .ok content
    | .ok none => .error noContentMsg
    | .http status m =>
        if status = 401 then .error invalidApiKeyMsg
        else if status = 429 then .error rateLimitedMsg
        else if status = 500 ∨ status = 502 ∨ status = 503 then .error serviceUnavailableMsg
        else .error ("API error: " ++ providerMessageOf m)
    | .netError code m =>
        if code = "ENOTFOUND" ∨ code = "ECONNREFUSED" then .error networkUnreachableMsg
        else if code = "ETIMEDOUT" ∨ code = "ECONNABORTED" then .error timeoutMsg
        else .error m

/-- The ErrorClass produced by one analyzeImage call: none on success,
otherwise the class of the thrown message under the fixed table. -/
def analyzeClass (apiKey : String) (resp : ApiResponse) : Option ErrorClass :=
  match analyzeImage apiKey resp with
  | .ok _ => none
  | .error m => some (errorClassOfMessage m)

/-- Any message of the form "API error: {m}" starts with the character A. -/
theorem api_error_head (m : String) : ("API error: " ++ m).data.head? = some 'A' := rfl

/-- "API error: {m}" never equals a string whose first character is not A. -/
theorem api_error_ne (m fixed : String) (hf : ¬ fixed.data.head? = some 'A') :
    ¬ ("API error: " ++ m = fixed) :=
  fun h => hf (h ▸ api_error_head m)

/-- The default branch of the status switch is always classified Unknown:
no fixed table message starts with "API error: ". -/
theorem errorClass_api_error (m : String) :
    errorClassOfMessage ("API error: " ++ m) = .unknown := by
  unfold errorClassOfMessage
  rw [if_neg (api_error_ne m _ (by decide)), if_neg (api_error_ne m _ (by decide)),
    if_neg (api_error_ne m _ (by decide)), if_neg (api_error_ne m _ (by decide)),
    if_neg (api_error_ne m _ (by decide)), if_neg (api_error_ne m _ (by decide)),
    if_neg (api_error_ne m _ (by decide))]

/-- C5 counterexample: HTTP 504 is a 5xx status, yet analyzeImage maps it to
the default branch "API error: {message}", classified Unknown — not to the
ServiceUnavailable message, refuting the claim that every 5xx status maps to
ServiceUnavailable. -/
theorem c5_cex_504_not_service_unavailable :
    analyzeImage "sk-test" (.http 504 (some "Gateway timeout")) =
      .error "API error: Gateway timeout"
  ∧ analyzeClass "sk-test" (.http 504 (some "Gateway timeout")) = some .unknown
  ∧ ¬ analyzeClass "sk-test" (.http 504 (some "Gateway timeout")) =
        some .serviceUnavailable := by
  refine ⟨rfl, rfl, by decide⟩

/-- C5 (amended): the classification of analyzeImage is total over HTTP
outcomes with mapping 401 to InvalidApiKey, 429 to RateLimited (whose emitted
message is verbatim "Rate limit exceeded. Please wait a moment before trying
again."), exactly the statuses 500, 502 and 503 to ServiceUnavailable, every
other status carrying a response to Unknown, DNS/connection failure
(ENOTFOUND, ECONNREFUSED) to NetworkUnreachable, client-side timeout
(ETIMEDOUT, ECONNABORTED) to Timeout, and a missing or empty response body to
Unknown; any other transport error is rethrown with its original message. -/
theorem c5_error_mapping (key : String) (m : Option String) (s : Nat)
    (code msg : String) (hk : ¬ key = "")
    (hs : ¬ s = 401 ∧ ¬ s = 429 ∧ ¬ s = 500 ∧ ¬ s = 502 ∧ ¬ s = 503)
    (hc : ¬ code = "ENOTFOUND" ∧ ¬ code = "ECONNREFUSED" ∧
          ¬ code = "ETIMEDOUT" ∧ ¬ code = "ECONNABORTED") :
    analyzeClass key (.http 401 m) = some .invalidApiKey
  ∧ analyzeImage key (.http 429 m) =
      .error "Rate limit exceeded. Please wait a moment before trying again."
  ∧ analyzeClass key (.http 429 m) = some .rateLimited
  ∧ analyzeClass key (.http 500 m) = some .serviceUnavailable
  ∧ analyzeClass key (.http 502 m) = some .serviceUnavailable
  ∧ analyzeClass key (.http 503 m) = some .serviceUnavailable
  ∧ analyzeClass key (.http s m) = some .unknown
  ∧ analyzeClass key (.netError "ENOTFOUND" msg) = some .networkUnreachable
  ∧ analyzeClass key (.netError "ECONNREFUSED" msg) = some .networkUnreachable
  ∧ analyzeClass key (.netError "ETIMEDOUT" msg) = some .timeout
  ∧ analyzeClass key (.netError "ECONNABORTED" msg) = some .timeout
  ∧ analyzeImage key (.netError code msg) = .error msg
  ∧ analyzeClass key (.ok none) = some .unknown := by
  obtain ⟨h401, h429, h500, h502, h503⟩ := hs
  obtain ⟨c1, c2, c3, c4⟩ := hc
  have hU : analyzeClass key (.http s m) = some .unknown := by
    simp [analyzeClass, analyzeImage, hk, h401, h429, h500, h502, h503,
      errorClass_api_error]
  refine ⟨?_, ?_, ?_, ?_, ?_, ?_, hU, ?_, ?_, ?_, ?_, ?_, ?_⟩ <;>
    simp [analyzeClass, analyzeImage, errorClassOfMessage, hk,
      c1, c2, c3, c4, invalidApiKeyMsg, rateLimitedMsg,
      serviceUnavailableMsg, networkUnreachableMsg, timeoutMsg, noApiKeyMsg,
      captureFailedMsg, noContentMsg]

/-- Witness for c5_error_mapping at key "sk-test", provider message
"Gateway timeout", status 501, code "EPIPE". -/
theorem c5_error_mapping_witness :
    analyzeClass "sk-test" (.http 401 (some "Gateway timeout")) = some .invalidApiKey
  ∧ analyzeClass "sk-test" (.http 501 (some "Gateway timeout")) = some .unknown
  ∧ analyzeImage "sk-test" (.netError "EPIPE" "broken pipe") = .error "broken pipe" :=
  have h := c5_error_mapping "sk-test" (some "Gateway timeout") 501 "EPIPE" "broken pipe"
    (by decide) (by decide) (by decide)
  ⟨h.1, h.2.2.2.2.2.2.1, h.2.2.2.2.2.2.2.2.2.2.2.1⟩

/-! ## main.js: stored settings, orchestrator state and renderer events -/

/-- The electron-store contents, main.js lines 17-25 (defaults: interval
10000, autoCapture false, key "", minimizeToTray true, showNotifications
true). -/
structure Settings where
  captureInterval : Nat
  autoCapture : Bool
  openaiApiKey : String
  minimizeToTray : Bool
  showNotifications : Bool
deriving DecidableEq

/-- The store defaults of main.js lines 18-24. -/
def defaultSettings : Settings :=
  { captureInterval := 10000, autoCapture := false, openaiApiKey := "",
    minimizeToTray := true, showNotifications := true }

/-- The repeating interval handle created by setInterval in startAutoCapture:
its period and the instant of its next firing. -/
structure Timer where
  intervalMs : Nat
  nextFire : Nat
deriving DecidableEq

/-- Events sent to the renderer via mainWindow.webContents.send. -/
inductive Event
  | captureStarted
  | analyzing
  | captureComplete (success : Bool) (payload : String)
  | autoCaptureStatus (enabled : Bool)
deriving DecidableEq

/-- Mutable main-process state: the store contents, the interval handle
captureIntervalId (none when cleared), the single-flight flag isCapturing,
whether mainWindow is non-null, and the current clock instant in ms. -/
structure OrchState where
  settings : Settings
  timer : Option Timer
  isCapturing : Bool
  mainWindow : Bool
  now : Nat
deriving DecidableEq

/-- Environment of one performCapture run: the outcome of the awaited
captureScreen call (a thrown message, or the returned base64 string, where
"" models a falsy return) and the transport outcome of the awaited
analyzeImage call. -/
structure Env where
  captureResult : Except String String
  apiResponse : ApiResponse

/-- mainWindow.webContents.send guarded by if (mainWindow). -/
def emitTo (window : Bool) (e : Event) : List Event :=
  if window then [e] else []

/-- Result of one performCapture invocation: the post state, the events sent
to the renderer, and how often captureScreen and analyzeImage were invoked. -/
structure PCResult where
  state : OrchState
  events : List Event
  captureCalls : Nat
  analyzeCalls : Nat
deriving DecidableEq

/-- main.js lines 155-224: performCapture.  An early return when isCapturing
is already set; otherwise the flag is raised, capture-started is sent,
captureScreen is awaited, a falsy screenshot throws, an empty stored key
throws, analyzing is sent, analyzeImage is awaited; the catch turns any
thrown message into one capture-complete event with success false, and the
finally clause clears isCapturing on every exit path. -/
def performCapture (env : Env) (st : OrchState) : PCResult :=
  if st.isCapturing then ⟨st, [], 0, 0⟩
  else
    match env.captureResult with
    | .error m =>
        ⟨{ st with isCapturing := false },
          emitTo st.mainWindow .captureStarted ++
            emitTo st.mainWindow (.captureComplete false m), 1, 0⟩
    | .ok shot =>
        if shot = "" then
          ⟨{ st with isCapturing := false },
            emitTo st.mainWindow .captureStarted ++
              emitTo st.mainWindow (.captureComplete false captureFailedMsg), 1, 0⟩
        else if st.settings.openaiApiKey = "" then
          ⟨{ st with isCapturing := false },
            emitTo st.mainWindow .captureStarted ++
              emitTo st.mainWindow (.captureComplete false noApiKeyMsg), 1, 0⟩
        else
          match analyzeImage st.settings.openaiApiKey env.apiResponse with
          | .error m =>
              ⟨{ st with isCapturing := false },
                emitTo st.mainWindow .captureStarted ++
                  emitTo st.mainWindow .analyzing ++
                  emitTo st.mainWindow (.captureComplete false m), 1, 1⟩
          | .ok analysis =>
              ⟨{ st with isCapturing := false },
                emitTo st.mainWindow .captureStarted ++
                  emitTo st.mainWindow .analyzing ++
                  emitTo st.mainWindow (.captureComplete true analysis), 1, 1⟩

/-- Result of the capture-now IPC handler: the performCapture observables
plus the boolean the handler returns to the renderer. -/
structure CNResult where
  state : OrchState
  events : List Event
  captureCalls : Nat
  analyzeCalls : Nat
  returned : Bool
deriving DecidableEq

/-- main.js lines 231-237: the capture-now handler.  It awaits the
permission probe; when granted it awaits performCapture, and in either case
it returns the permission boolean to the renderer. -/
def captureNow (permission : Bool) (env : Env) (st : OrchState) : CNResult :=
  if permission then
    let r := performCapture env st
    ⟨r.state, r.events, r.captureCalls, r.analyzeCalls, true⟩
  else ⟨st, [], 0, 0, false⟩

/-- main.js lines 112-132: startAutoCapture.  Clears any existing interval
(modelled by overwriting the handle), reads the stored captureInterval, arms
a fresh repeating timer whose first firing is one full period away, persists
autoCapture true, and sends auto-capture-status true. -/
def startAutoCapture (st : OrchState) : OrchState × List Event :=
  ({ st with
      timer := some ⟨st.settings.captureInterval, st.now + st.settings.captureInterval⟩,
      settings := { st.settings with autoCapture := true } },
   emitTo st.mainWindow (.autoCaptureStatus true))

/-- main.js lines 137-150: stopAutoCapture.  Clears the interval handle when
present, persists autoCapture false, and sends auto-capture-status false. -/
def stopAutoCapture (st : OrchState) : OrchState × List Event :=
  ({ st with timer := none, settings := { st.settings with autoCapture := false } },
   emitTo st.mainWindow (.autoCaptureStatus false))

/-- Subset-update object accepted by the update-settings IPC handler: the
four fields the handler inspects, each possibly absent (undefined). -/
structure SettingsPatch where
  captureInterval : Option Nat
  openaiApiKey : Option String
  minimizeToTray : Option Bool
  showNotifications : Option Bool
deriving DecidableEq

/-- main.js lines 264-284: the update-settings handler.  Each field present
in the update object overwrites the stored value; a present captureInterval
additionally restarts auto-capture when the store says it is active.  The
handler returns true. -/
def updateSettings (p : SettingsPatch) (st : OrchState) : OrchState × List Event × Bool :=
  let s1 :=
    match p.captureInterval with
    | some v =>
        let stv := { st with settings := { st.settings with captureInterval := v } }
        if stv.settings.autoCapture then startAutoCapture stv else (stv, [])
    | none => (st, [])
  let st2 :=
    match p.openaiApiKey with
    | some k => { s1.1 with settings := { s1.1.settings with openaiApiKey := k } }
    | none => s1.1
  let st3 :=
    match p.minimizeToTray with
    | some b => { st2 with settings := { st2.settings with minimizeToTray := b } }
    | none => st2
  let st4 :=
    match p.showNotifications with
    | some b => { st3 with settings := { st3.settings with showNotifications := b } }
    | none => st3
  (st4, s1.2, true)

/-! ## Frame and exit-path lemmas for performCapture -/

/-- Every exit path of an entered performCapture run leaves the state equal
to the input state with isCapturing cleared (the finally clause). -/
theorem performCapture_run_state (env : Env) (st : OrchState)
    (h : st.isCapturing = false) :
    (performCapture env st).state = { st with isCapturing := false } := by
  obtain ⟨cr, resp⟩ := env
  cases cr with
  | error m => simp [performCapture, h]
  | ok shot =>
    by_cases hs : shot = ""
    · simp [performCapture, h, hs]
    · by_cases hk : st.settings.openaiApiKey = ""
      · simp [performCapture, h, hs, hk]
      · cases har : analyzeImage st.settings.openaiApiKey resp <;>
        simp [performCapture, h, hs, hk, har]

/-- performCapture never touches the stored settings or the interval
handle, on any path including the early return. -/
theorem performCapture_frame (env : Env) (st : OrchState) :
    (performCapture env st).state.settings = st.settings
  ∧ (performCapture env st).state.timer = st.timer := by
  by_cases h : st.isCapturing = true
  · simp [performCapture, h]
  · rw [performCapture_run_state env st (by simpa using h)]
    exact ⟨rfl, rfl⟩

/-- An entered performCapture run invokes captureScreen exactly once. -/
theorem performCapture_calls (env : Env) (st : OrchState)
    (h : st.isCapturing = false) :
    (performCapture env st).captureCalls = 1 := by
  obtain ⟨cr, resp⟩ := env
  cases cr with
  | error m => simp [performCapture, h]
  | ok shot =>
    by_cases hs : shot = ""
    · simp [performCapture, h, hs]
    · by_cases hk : st.settings.openaiApiKey = ""
      · simp [performCapture, h, hs, hk]
      · cases har : analyzeImage st.settings.openaiApiKey resp <;>
        simp [performCapture, h, hs, hk, har]

/-! ## Claim C2 -/

/-- C2: on every exit path of an entered pipeline run (success, classified
failure, or a message thrown mid-pipeline) the finally clause clears the
single-flight guard, so the state ends with isCapturing false and a
subsequent trigger enters the pipeline again (captureScreen is invoked). -/
theorem c2_guard_cleared (env env2 : Env) (st : OrchState)
    (h : st.isCapturing = false) :
    (performCapture env st).state.isCapturing = false
  ∧ (performCapture env2 (performCapture env st).state).captureCalls = 1 := by
  have h1 : (performCapture env st).state = { st with isCapturing := false } :=
    performCapture_run_state env st h
  refine ⟨by rw [h1], performCapture_calls env2 _ (by rw [h1])⟩

/-- Witness for c2_guard_cleared: a concrete idle state and a run whose
capture throws, followed by a second trigger. -/
theorem c2_guard_cleared_witness :
    (performCapture ⟨.error "boom", .ok none⟩
        ⟨defaultSettings, none, false, true, 0⟩).state.isCapturing = false
  ∧ (performCapture ⟨.ok "img", .ok (some "text")⟩
        (performCapture ⟨.error "boom", .ok none⟩
          ⟨defaultSettings, none, false, true, 0⟩).state).captureCalls = 1 :=
  c2_guard_cleared ⟨.error "boom", .ok none⟩ ⟨.ok "img", .ok (some "text")⟩
    ⟨defaultSettings, none, false, true, 0⟩ rfl

/-! ## Claim C3 -/

/-- C3: when the permission probe reports not granted, the capture-now
handler performs nothing: captureScreen and analyzeImage are invoked zero
times, no events are sent, the state is untouched, and the handler reports
the denial by returning false (the source's only encoding of the
PermissionDenied outcome; no capture is attempted). -/
theorem c3_permission_gate (env : Env) (st : OrchState) :
    captureNow false env st =
      ⟨st, [], 0, 0, false⟩ := rfl

/-! ## Claim C4 -/

/-- C4: with an empty stored apiKey and a successful screen capture, the
capture is performed (captureScreen invoked once) but analyzeImage is never
invoked (zero network calls); the run emits capture-started followed by one
capture-complete event with success false carrying the NoApiKey message,
whose error class is NoApiKey. -/
theorem c4_no_api_key (shot : String) (resp : ApiResponse) (st : OrchState)
    (hk : st.settings.openaiApiKey = "") (hc : st.isCapturing = false)
    (hs : ¬ shot = "") (hw : st.mainWindow = true) :
    performCapture ⟨.ok shot, resp⟩ st =
      ⟨{ st with isCapturing := false },
        [.captureStarted, .captureComplete false noApiKeyMsg], 1, 0⟩
  ∧ errorClassOfMessage noApiKeyMsg = .noApiKey := by
  refine ⟨by simp [performCapture, hc, hs, hk, emitTo, hw], by decide⟩

/-- Witness for c4_no_api_key at a concrete empty-key state. -/
theorem c4_no_api_key_witness :
    performCapture ⟨.ok "img", .ok (some "text")⟩
        ⟨defaultSettings, none, false, true, 0⟩ =
      ⟨⟨defaultSettings, none, false, true, 0⟩,
        [.captureStarted, .captureComplete false noApiKeyMsg], 1, 0⟩
  ∧ errorClassOfMessage noApiKeyMsg = .noApiKey :=
  c4_no_api_key "img" (.ok (some "text")) ⟨defaultSettings, none, false, true, 0⟩
    rfl rfl (by decide) rfl

/-! ## Claim C6 -/

/-- The capture-complete events of a run, as (success, payload) pairs. -/
def completes (evs : List Event) : List (Bool × String) :=
  evs.filterMap fun e =>
    match e with
    | .captureComplete s m => some (s, m)
    | _ => none

/-- Whether some pipeline step of an entered run fails: capture throws, the
screenshot is falsy, the stored key is empty, or the analysis call throws. -/
def pipelineFails (env : Env) (key : String) : Bool :=
  match env.captureResult with
  | .error _ => true
  | .ok shot =>
      if shot = "" then true
      else if key = "" then true
      else
        match analyzeImage key env.apiResponse with
        | .error _ => true
        | .ok _ => false

/-- C6: every failing entered run is caught at the orchestrator boundary and
reported as exactly one capture-complete event with success false carrying
the thrown message; performCapture itself returns on every input (nothing
propagates uncaught), and no step is retried: captureScreen and analyzeImage
are each invoked at most once. -/
theorem c6_failure_reporting (env : Env) (st : OrchState)
    (hc : st.isCapturing = false) (hw : st.mainWindow = true)
    (hf : pipelineFails env st.settings.openaiApiKey = true) :
    (∃ m, completes (performCapture env st).events = [(false, m)])
  ∧ (performCapture env st).captureCalls ≤ 1
  ∧ (performCapture env st).analyzeCalls ≤ 1 := by
  obtain ⟨cr, resp⟩ := env
  cases cr with
  | error m =>
    exact ⟨⟨m, by simp [performCapture, hc, hw, emitTo, completes]⟩,
      by simp [performCapture, hc], by simp [performCapture, hc]⟩
  | ok shot =>
    by_cases hs : shot = ""
    · exact ⟨⟨captureFailedMsg, by simp [performCapture, hc, hs, hw, emitTo, completes]⟩,
        by simp [performCapture, hc, hs], by simp [performCapture, hc, hs]⟩
    · by_cases hk : st.settings.openaiApiKey = ""
      · exact ⟨⟨noApiKeyMsg, by simp [performCapture, hc, hs, hk, hw, emitTo, completes]⟩,
          by simp [performCapture, hc, hs, hk], by simp [performCapture, hc, hs, hk]⟩
      · cases har : analyzeImage st.settings.openaiApiKey resp with
        | error m =>
          exact ⟨⟨m, by simp [performCapture, hc, hs, hk, har, hw, emitTo, completes]⟩,
            by simp [performCapture, hc, hs, hk, har],
            by simp [performCapture, hc, hs, hk, har]⟩
        | ok a =>
          exfalso
          simp [pipelineFails, hs, hk, har] at hf

/-- Witness for c6_failure_reporting: capture throws "boom" in an idle state
with a window. -/
theorem c6_failure_reporting_witness :
    (∃ m, completes (performCapture ⟨.error "boom", .ok none⟩
        ⟨defaultSettings, none, false, true, 0⟩).events = [(false, m)])
  ∧ (performCapture ⟨.error "boom", .ok none⟩
        ⟨defaultSettings, none, false, true, 0⟩).captureCalls ≤ 1
  ∧ (performCapture ⟨.error "boom", .ok none⟩
        ⟨defaultSettings, none, false, true, 0⟩).analyzeCalls ≤ 1 :=
  c6_failure_reporting ⟨.error "boom", .ok none⟩
    ⟨defaultSettings, none, false, true, 0⟩ rfl rfl rfl

/-! ## Claim C10 -/

/-- C10: the capture-now handler's return value reports only the permission
probe's result: it equals the permission boolean on every input; when
permission is granted but another attempt is in flight the request is
silently suppressed (no events, state untouched, no collaborator invoked)
yet the handler still returns true; and when permission is not granted it
returns false and emits no capture-complete event. -/
theorem c10_capture_now_return (perm : Bool) (env : Env) (st : OrchState) :
    (captureNow perm env st).returned = perm
  ∧ (perm = false → captureNow perm env st = ⟨st, [], 0, 0, false⟩)
  ∧ (perm = true → st.isCapturing = true →
      captureNow perm env st = ⟨st, [], 0, 0, true⟩) := by
  refine ⟨?_, ?_, ?_⟩
  · cases perm <;> rfl
  · intro h; subst h; rfl
  · intro h1 h2; subst h1; simp [captureNow, performCapture, h2]

/-- Witness for c10_capture_now_return: permission granted while an attempt
is in flight returns true with no events and no state change. -/
theorem c10_capture_now_return_witness :
    (captureNow true ⟨.error "boom", .ok none⟩
        ⟨defaultSettings, none, true, true, 0⟩).returned = true
  ∧ captureNow true ⟨.error "boom", .ok none⟩
        ⟨defaultSettings, none, true, true, 0⟩ =
      ⟨⟨defaultSettings, none, true, true, 0⟩, [], 0, 0, true⟩ :=
  ⟨(c10_capture_now_return true ⟨.error "boom", .ok none⟩
      ⟨defaultSettings, none, true, true, 0⟩).1,
   (c10_capture_now_return true ⟨.error "boom", .ok none⟩
      ⟨defaultSettings, none, true, true, 0⟩).2.2 rfl rfl⟩

/-! ## Claim C9 -/

/-- C9: the update-settings handler overwrites exactly the stored values
whose fields are present in the update object; every field absent from the
object keeps its previous stored value, and autoCapture (which the handler
never writes except to re-assert its current true value on a restart) is
always unchanged. -/
theorem c9_settings_update_frame (p : SettingsPatch) (st : OrchState) :
    ((updateSettings p st).1).settings =
      { captureInterval := p.captureInterval.getD st.settings.captureInterval,
        autoCapture := st.settings.autoCapture,
        openaiApiKey := p.openaiApiKey.getD st.settings.openaiApiKey,
        minimizeToTray := p.minimizeToTray.getD st.settings.minimizeToTray,
        showNotifications := p.showNotifications.getD st.settings.showNotifications } := by
  obtain ⟨ci, key, mt, sn⟩ := p
  obtain ⟨⟨a, b, k, mtr, shn⟩, tmr, cap, win, n⟩ := st
  cases ci <;> cases key <;> cases mt <;> cases sn <;> cases b <;>
    simp [updateSettings, startAutoCapture]

/-! ## Claim C7 -/

/-- C7: when the update object carries a captureInterval and the store says
auto-capture is active, the handler stores the new value first and then
restarts the timer, so the armed timer has exactly the new period and its
next firing is one full new period after the change instant (in particular,
changing 10000 to 30000 puts the next tick at now + 30000, not
now + 10000). -/
theorem c7_interval_restart (st : OrchState) (p : SettingsPatch) (v : Nat)
    (hAuto : st.settings.autoCapture = true) (hp : p.captureInterval = some v) :
    ((updateSettings p st).1).timer = some ⟨v, st.now + v⟩
  ∧ ((updateSettings p st).1).settings.captureInterval = v := by
  obtain ⟨ci, key, mt, sn⟩ := p
  simp only at hp
  subst hp
  cases key <;> cases mt <;> cases sn <;>
    simp [updateSettings, startAutoCapture, hAuto]

/-- Witness for c7_interval_restart: at instant 5000, with interval 10000
and an active timer, storing 30000 re-arms the timer to fire at 35000,
which is at least 30000 after the change. -/
theorem c7_interval_restart_witness :
    ((updateSettings ⟨some 30000, none, none, none⟩
        ⟨⟨10000, true, "sk-test", true, true⟩, some ⟨10000, 15000⟩, false, true, 5000⟩).1).timer
      = some ⟨30000, 35000⟩
  ∧ 35000 - 5000 ≥ 30000 :=
  ⟨(c7_interval_restart
      ⟨⟨10000, true, "sk-test", true, true⟩, some ⟨10000, 15000⟩, false, true, 5000⟩
      ⟨some 30000, none, none, none⟩ 30000 rfl rfl).1,
   by decide⟩

/-! ## Command level: the orchestrator entry points as an event system -/

/-- The orchestrator entry points that can run after the app is ready:
toggling auto-capture on or off, an update-settings request, a capture-now
request, a firing of the armed interval timer, and the before-quit teardown
hook (main.js lines 346-350, which calls stopAutoCapture before shutdown
proceeds). -/
inductive Cmd
  | startAuto
  | stopAuto
  | updateSet (p : SettingsPatch)
  | capNow (permission : Bool) (env : Env)
  | timerTick (env : Env)
  | beforeQuit

/-- Recognizer for the only command that arms the timer. -/
def isStartAuto : Cmd → Bool
  | .startAuto => true
  | _ => false

/-- Body of the interval callback of main.js lines 120-124:
if (!isCapturing) await performCapture(). -/
def tickFire (env : Env) (st : OrchState) : OrchState :=
  if st.isCapturing then st else (performCapture env st).state

/-- One command step; the second component counts firings of the interval
callback in this step.  A timerTick can fire only while a timer is armed
(captureIntervalId non-null); a firing re-arms the repeating timer one
period later. -/
def stepCmd (st : OrchState) : Cmd → OrchState × Nat
  | .startAuto => ((startAutoCapture st).1, 0)
  | .stopAuto => ((stopAutoCapture st).1, 0)
  | .updateSet p => ((updateSettings p st).1, 0)
  | .capNow perm env => ((captureNow perm env st).state, 0)
  | .timerTick env =>
      match st.timer with
      | some t =>
          ({ tickFire env st with timer := some ⟨t.intervalMs, t.nextFire + t.intervalMs⟩ }, 1)
      | none => (st, 0)
  | .beforeQuit => ((stopAutoCapture st).1, 0)

/-- Run a command sequence, accumulating the number of timer firings. -/
def runCmds (st : OrchState) : List Cmd → OrchState × Nat
  | [] => (st, 0)
  | c :: cs => ((runCmds (stepCmd st c).1 cs).1, (stepCmd st c).2 + (runCmds (stepCmd st c).1 cs).2)

/-- From any state with autoCapture false and no armed timer, any command
sequence that never calls startAutoCapture keeps the timer disarmed, keeps
autoCapture false, and produces zero timer firings. -/
theorem runCmds_stopped (cs : List Cmd) : ∀ st : OrchState,
    st.settings.autoCapture = false → st.timer = none →
    (∀ c ∈ cs, isStartAuto c = false) →
    (runCmds st cs).1.settings.autoCapture = false
  ∧ (runCmds st cs).1.timer = none
  ∧ (runCmds st cs).2 = 0 := by
  induction cs with
  | nil => intro st h1 h2 _; exact ⟨h1, h2, rfl⟩
  | cons c cs ih =>
    intro st h1 h2 hall
    have hc : isStartAuto c = false := hall c (by simp)
    have hrest : ∀ x ∈ cs, isStartAuto x = false :=
      fun x hx => hall x (List.mem_cons_of_mem _ hx)
    have hstep : (stepCmd st c).1.settings.autoCapture = false
        ∧ (stepCmd st c).1.timer = none ∧ (stepCmd st c).2 = 0 := by
      cases c with
      | startAuto => simp [isStartAuto] at hc
      | stopAuto => exact ⟨rfl, rfl, rfl⟩
      | updateSet p =>
        obtain ⟨ci, key, mt, sn⟩ := p
        cases ci <;> cases key <;> cases mt <;> cases sn <;>
          simp [stepCmd, updateSettings, startAutoCapture, h1, h2]
      | capNow perm env =>
        cases perm with
        | false => exact ⟨h1, h2, rfl⟩
        | true =>
          have hst : (stepCmd st (.capNow true env)).1 = (performCapture env st).state := rfl
          refine ⟨?_, ?_, rfl⟩
          · rw [hst, (performCapture_frame env st).1]; exact h1
          · rw [hst, (performCapture_frame env st).2]; exact h2
      | timerTick env => simp [stepCmd, h2, h1]
      | beforeQuit => exact ⟨rfl, rfl, rfl⟩
    have hr := ih (stepCmd st c).1 hstep.1 hstep.2.1 hrest
    exact ⟨hr.1, hr.2.1, by simp [runCmds, hstep.2.2, hr.2.2]⟩

/-! ## Claim C8 -/

/-- C8: stopAutoCapture is idempotent (a second call leaves the state it
produced unchanged, and being a total function it raises no error), and it
is final: after any call, under any further command sequence that never
calls startAutoCapture (repeated stops, settings updates, manual captures,
tick attempts, and the before-quit teardown included), the timer stays
disarmed and fires zero times. -/
theorem c8_stop_idempotent_final (st : OrchState) (cs : List Cmd)
    (h : ∀ c ∈ cs, isStartAuto c = false) :
    (stopAutoCapture (stopAutoCapture st).1).1 = (stopAutoCapture st).1
  ∧ (runCmds (stopAutoCapture st).1 cs).1.timer = none
  ∧ (runCmds (stopAutoCapture st).1 cs).2 = 0 := by
  have hr := runCmds_stopped cs (stopAutoCapture st).1 rfl rfl h
  exact ⟨rfl, hr.2.1, hr.2.2⟩

/-- Witness for c8_stop_idempotent_final: after stopping, a second stop, a
tick attempt, a settings update and the teardown hook leave the timer
disarmed with zero firings. -/
theorem c8_stop_idempotent_final_witness :
    (stopAutoCapture (stopAutoCapture
        ⟨defaultSettings, some ⟨10000, 10000⟩, false, true, 0⟩).1).1 =
      (stopAutoCapture ⟨defaultSettings, some ⟨10000, 10000⟩, false, true, 0⟩).1
  ∧ (runCmds (stopAutoCapture
        ⟨defaultSettings, some ⟨10000, 10000⟩, false, true, 0⟩).1
      [.stopAuto, .timerTick ⟨.error "boom", .ok none⟩,
       .updateSet ⟨some 30000, none, none, none⟩, .beforeQuit]).1.timer = none
  ∧ (runCmds (stopAutoCapture
        ⟨defaultSettings, some ⟨10000, 10000⟩, false, true, 0⟩).1
      [.stopAuto, .timerTick ⟨.error "boom", .ok none⟩,
       .updateSet ⟨some 30000, none, none, none⟩, .beforeQuit]).2 = 0 :=
  c8_stop_idempotent_final ⟨defaultSettings, some ⟨10000, 10000⟩, false, true, 0⟩
    [.stopAuto, .timerTick ⟨.error "boom", .ok none⟩,
     .updateSet ⟨some 30000, none, none, none⟩, .beforeQuit]
    (by intro c hc; fin_cases hc <;> rfl)

/-! ## Interleaved model of performCapture for the single-flight claim

performCapture is an async function: in the single-threaded event loop it
runs atomically from the guard check (main.js line 156) and the flag set
(line 158) up to the first await (captureScreen, line 168), suspends, runs
again up to the await of analyzeImage (line 190), suspends, and then runs to
the finally clause (line 222).  Triggers can arrive at the suspension
points; this model makes the three atomic segments and the interleaved
triggers explicit and counts the attempts begun and not yet terminal. -/

/-- Suspension point the (unique) in-flight attempt is waiting at. -/
inductive Phase
  | idle
  | capturing
  | analyzing
deriving DecidableEq

/-- Event-loop state: the isCapturing flag, the number of capture-analyze
attempts begun and not yet terminal, and the phase of the in-flight
attempt. -/
structure LoopState where
  isCapturing : Bool
  inFlight : Nat
  phase : Phase
deriving DecidableEq

/-- The events the loop serves: a manual capture-now request (whose handler
calls performCapture, line 234), an auto-capture timer tick (whose callback
checks !isCapturing and calls performCapture, lines 120-124, which checks
the flag again), completion of the awaited captureScreen (ok tells whether
a truthy screenshot came back, hasKey whether the stored key is non-empty),
and completion of the awaited analyzeImage (success or throw: both reach
the finally clause). -/
inductive LoopEvent
  | manualTrigger
  | tickTrigger
  | captureDone (ok : Bool) (hasKey : Bool)
  | analyzeDone
deriving DecidableEq

/-- Start state: flag down, no attempt in flight. -/
def loopInit : LoopState := ⟨false, 0, .idle⟩

/-- One atomic segment of the event loop.  A trigger that finds isCapturing
set returns at once: it starts no attempt, queues nothing (the state has no
queue to append to) and throws nothing (the step is total).  A trigger that
finds the flag down sets it and begins an attempt.  A captureDone that
fails, or finds no key, or any analyzeDone, runs catch and finally:
the attempt turns terminal and the flag is cleared. -/
def loopStep (st : LoopState) : LoopEvent → LoopState
  | .manualTrigger =>
      if st.isCapturing then st
      else { isCapturing := true, inFlight := st.inFlight + 1, phase := .capturing }
  | .tickTrigger =>
      if st.isCapturing then st
      else { isCapturing := true, inFlight := st.inFlight + 1, phase := .capturing }
  | .captureDone ok hasKey =>
      match st.phase with
      | .capturing =>
          if ok && hasKey then { st with phase := .analyzing }
          else { isCapturing := false, inFlight := st.inFlight - 1, phase := .idle }
      | _ => st
  | .analyzeDone =>
      match st.phase with
      | .analyzing => { isCapturing := false, inFlight := st.inFlight - 1, phase := .idle }
      | _ => st

/-- Serve a whole event sequence. -/
def loopRun (st : LoopState) : List LoopEvent → LoopState
  | [] => st
  | e :: es => loopRun (loopStep st e) es

/-- Single-flight invariant: the live-attempt count mirrors the flag, and
the phase is idle exactly when the flag is down. -/
def loopInv (st : LoopState) : Prop :=
  st.inFlight = (if st.isCapturing then 1 else 0) ∧ (st.phase = .idle ↔ st.isCapturing = false)

/-- Every atomic segment preserves the single-flight invariant. -/
theorem loopStep_inv (st : LoopState) (e : LoopEvent) (h : loopInv st) :
    loopInv (loopStep st e) := by
  obtain ⟨b, n, p⟩ := st
  obtain ⟨h1, h2⟩ := h
  simp only at h1 h2
  cases b <;> cases p <;> simp_all <;> subst h1 <;>
    cases e <;> simp [loopStep, loopInv] <;>
    (try rename_i ok hasKey) <;> (try cases ok) <;> (try cases hasKey) <;> simp

/-- The invariant holds after any event sequence from the start state. -/
theorem loopRun_inv (es : List LoopEvent) : ∀ st, loopInv st → loopInv (loopRun st es) := by
  induction es with
  | nil => exact fun st h => h
  | cons e es ih => exact fun st h => ih _ (loopStep_inv st e h)

/-! ## Claim C1 -/

/-- C1: for every sequence of trigger events and awaited completions, in any
interleaving, at most one capture-analyze attempt is non-terminal at any
instant; and a trigger (manual or tick) arriving while an attempt is in
flight leaves the state exactly unchanged — it starts no new attempt, queues
nothing, and raises no error. -/
theorem c1_single_flight (es : List LoopEvent) :
    (loopRun loopInit es).inFlight ≤ 1
  ∧ (∀ st : LoopState, st.isCapturing = true →
      loopStep st .manualTrigger = st ∧ loopStep st .tickTrigger = st) := by
  constructor
  · have h := loopRun_inv es loopInit ⟨rfl, by simp [loopInit]⟩
    rw [h.1]
    split <;> simp
  · intro st hb
    exact ⟨by simp [loopStep, hb], by simp [loopStep, hb]⟩

/-- Witness for c1_single_flight: a sequence with a tick arriving during a
manual attempt, and the no-op of a trigger on a busy state. -/
theorem c1_single_flight_witness :
    (loopRun loopInit [.manualTrigger, .tickTrigger, .captureDone true true]).inFlight ≤ 1
  ∧ loopStep ⟨true, 1, .capturing⟩ .manualTrigger = ⟨true, 1, .capturing⟩ :=
  ⟨(c1_single_flight [.manualTrigger, .tickTrigger, .captureDone true true]).1,
   ((c1_single_flight []).2 ⟨true, 1, .capturing⟩ rfl).1⟩
